import Mathlib

/-!
Verification of the JN5000 Streamlit dashboard (src/main.py): a shallow
embedding of its session state, the Twitch relay handler, the system-message
helpers, the clear-log operation and the Start handler, followed by theorems
about the claims of the specification.

Modelling conventions:
  * Streamlit session state (the shared log and counters) becomes an explicit
    SessionState record threaded through each handler.
  * The external backends (googletrans translate, Groq completion) are
    black-box capability providers; each inbound event carries the outcome of
    the calls the handler would make (an Option String, none when the call
    raised).
  * Outbound channel.send calls are returned as a list of sent strings.
  * datetime.now() is modelled by a Nat timestamp supplied per event.
-/

/-- The value of the "type" key of a log record dict in main.py:
"system", "twitch", "translation" or "ai". -/
inductive MsgType where
  | system
  | twitch
  | translation
  | ai
deriving DecidableEq

/-- One record dict appended to st.session_state.messages. -/
structure MessageRecord where
  type : MsgType
  username : String
  message : String
  timestamp : Nat
deriving DecidableEq

/-- The persona profile dict built in the sidebar (lines 434-441). -/
structure Profile where
  nickname : String
  bio : String
  style : String
  game : String
  cpu : String
  gpu : String
deriving DecidableEq

/-- The settings dict passed to the bot (lines 430-442). -/
structure Settings where
  translation_enabled : Bool
  target_language : String
  ai_enabled : Bool
  profile : Profile
deriving DecidableEq

/-- The JN5000Bot fields that drive event_message: whether a Groq client and
a Translator were supplied (is-not-None of groq_client and translator), plus
the settings dict. Connection parameters (token, channel list) are consumed
by the twitchio superclass and play no role in the relay logic. -/
structure JN5000Bot where
  groq_client : Bool
  translator : Bool
  settings : Settings
deriving DecidableEq

/-- The Streamlit session state initialised at lines 98-114: the shared
message log, the running flag, the stored bot handle and the three counters. -/
structure SessionState where
  messages : List MessageRecord
  system_running : Bool
  twitch_bot : Option JN5000Bot
  message_count : Nat
  translation_count : Nat
  ai_response_count : Nat
deriving DecidableEq

/-- The initial session state (lines 98-114): empty log, not running, no bot,
all counters zero. -/
def init : SessionState :=
  { messages := []
    system_running := false
    twitch_bot := none
    message_count := 0
    translation_count := 0
    ai_response_count := 0 }

/-- An inbound twitchio chat event as event_message reads it: the echo flag,
message.author.name and message.content. -/
structure InboundMessage where
  echo : Bool
  author : String
  content : String
deriving DecidableEq

/-- The outcomes of the external backend calls the relay would issue for one
inbound message: translated.text from translator.translate (none when the
call raises), and completion.choices[0].message.content from the Groq call
(none when the call raises or the content is missing). -/
structure BackendOutcome where
  translate : Option String
  completion : Option String
deriving DecidableEq

/-- event_ready (lines 131-139): append a system record announcing the
connected identity and increment the message counter. -/
def event_ready (nick : String) (s : SessionState) (now : Nat) : SessionState :=
  { s with
    messages := s.messages ++
      [⟨MsgType.system, "SystemBot", "✅ Connected to Twitch as " ++ nick, now⟩]
    message_count := s.message_count + 1 }

/-- The system prompt built from the profile in generate_ai_response
(lines 199-207). -/
def system_message (settings : Settings) : String :=
  let profile := settings.profile
  "You are " ++ profile.nickname ++ ".\n" ++
  "Bio: " ++ profile.bio ++ "\n" ++
  "Style: " ++ profile.style ++ "\n" ++
  "Current Game: " ++ profile.game ++ "\n" ++
  "Setup: CPU: " ++ profile.cpu ++ ", GPU: " ++ profile.gpu ++ "\n\n" ++
  "Respond naturally and briefly (1-2 sentences) to viewer messages.\n" ++
  "Be friendly, engaging, and stay in character."

/-- The user turn sent to the completion backend (line 212). -/
def user_turn (username message : String) : String :=
  username ++ " says: " ++ message

/-- Python str.strip() on the completion content: drop whitespace from both
ends, written with structural recursion so it evaluates on concrete inputs. -/
def strip (s : String) : String :=
  ⟨((s.data.dropWhile Char.isWhitespace).reverse.dropWhile Char.isWhitespace).reverse⟩

/-- generate_ai_response (lines 195-222): issue one completion request (whose
outcome is the oracle argument) and return the stripped content; any exception
is caught and None is returned. The settings, username and message only shape
the request (system_message and user_turn), not the result. -/
def generate_ai_response (settings : Settings) (username message : String)
    (completionContent : Option String) : Option String :=
  match completionContent with
  | some content => some (strip content)
  | none => none

/-- Step 2 of event_message (lines 147-154): append the chat record with the
sender name and raw text, increment the message counter. -/
def relay_chat (s : SessionState) (message : InboundMessage) (now : Nat) :
    SessionState :=
  { s with
    messages := s.messages ++ [⟨MsgType.twitch, message.author, message.content, now⟩]
    message_count := s.message_count + 1 }

/-- Step 3 of event_message (lines 156-171): when translation is enabled and
a translator is present, call it; on success append the translation record and
increment the translation counter; a raised exception is printed and the state
is left as it was. -/
def relay_translation (bot : JN5000Bot) (s : SessionState) (oracle : BackendOutcome)
    (now : Nat) : SessionState :=
  if bot.settings.translation_enabled && bot.translator then
    match oracle.translate with
    | some translated =>
      { s with
        messages := s.messages ++
          [⟨MsgType.translation, "Translator", "📝 " ++ translated, now⟩]
        translation_count := s.translation_count + 1 }
    | none => s
  else s

/-- Step 4 of event_message (lines 173-193): when AI is enabled and a Groq
client is present, call generate_ai_response; when the response is truthy
(not None and not the empty string) append the ai record, increment the
AI-reply counter and send the reply to the channel; a raised exception is
printed and nothing further happens. -/
def relay_ai (bot : JN5000Bot) (s : SessionState) (message : InboundMessage)
    (oracle : BackendOutcome) (now : Nat) : SessionState × List String :=
  if bot.settings.ai_enabled && bot.groq_client then
    match generate_ai_response bot.settings message.author message.content
        oracle.completion with
    | some response =>
      if response ≠ "" then
        ({ s with
           messages := s.messages ++
             [⟨MsgType.ai, "AI Bot", "🤖 @" ++ message.author ++ ": " ++ response, now⟩]
           ai_response_count := s.ai_response_count + 1 },
         ["@" ++ message.author ++ " " ++ response])
      else (s, [])
    | none => (s, [])
  else (s, [])

/-- event_message (lines 141-193): ignore self-echo, append the chat record,
then the translation step, then the AI step. Returns the new session state
and the list of outbound channel.send payloads. -/
def event_message (bot : JN5000Bot) (s : SessionState) (message : InboundMessage)
    (oracle : BackendOutcome) (now : Nat) : SessionState × List String :=
  if message.echo then (s, [])
  else relay_ai bot (relay_translation bot (relay_chat s message now) oracle now)
    message oracle now

/-- add_system_message (lines 229-237): append a system record and increment
the message counter. -/
def add_system_message (message : String) (s : SessionState) (now : Nat) :
    SessionState :=
  { s with
    messages := s.messages ++ [⟨MsgType.system, "SystemBot", message, now⟩]
    message_count := s.message_count + 1 }

/-- clear_messages (lines 240-245): empty the log and zero the three counters. -/
def clear_messages (s : SessionState) : SessionState :=
  { s with
    messages := []
    message_count := 0
    translation_count := 0
    ai_response_count := 0 }

/-- The sidebar configuration fields read by the Start handler. -/
structure SidebarConfig where
  twitch_channel : String
  twitch_token : String
  twitch_bot_name : String
  ai_enabled : Bool
  groq_api_key : String
  translation_enabled : Bool
  target_language : String
  profile : Profile
deriving DecidableEq

/-- The outcome surfaced by the Start System handler: the configuration
error (line 414), the TwitchIO-missing error (line 416), or a successful
start (lines 418-473). -/
inductive StartOutcome where
  | configError
  | twitchUnavailable
  | started
deriving DecidableEq

/-- The Start System button handler (lines 410-476): validate that the three
Twitch fields are nonempty, then construct the Groq client (iff AI is enabled,
a key is present and groq importable), the Translator (iff translation is
enabled and googletrans importable) and the bot, store the bot, flip the
running flag and append the started system record. -/
def start_system (cfg : SidebarConfig)
    ( TWITCH_AVAILABLE GROQ_AVAILABLE TRANSLATION_AVAILABLE : Bool)
    (s : SessionState) (now : Nat) : StartOutcome × SessionState :=
  if cfg.twitch_channel == "" || cfg.twitch_token == "" || cfg.twitch_bot_name == "" then
    (StartOutcome.configError, s)
  else if !TWITCH_AVAILABLE then
    (StartOutcome.twitchUnavailable, s)
  else
    let groq_client : Bool := cfg.ai_enabled && (cfg.groq_api_key != "") && GROQ_AVAILABLE
    let translator : Bool := cfg.translation_enabled && TRANSLATION_AVAILABLE
    let settings : Settings :=
      ⟨cfg.translation_enabled, cfg.target_language, cfg.ai_enabled, cfg.profile⟩
    let bot : JN5000Bot := ⟨groq_client, translator, settings⟩
    let s := { s with twitch_bot := some bot, system_running := true }
    (StartOutcome.started,
     add_system_message "🎮 System started! Connecting to Twitch..." s now)

/-- The Stop System button handler (lines 478-491): close the bot
(best-effort), drop the handle, flip the running flag and append the stopped
system record. -/
def stop_system (s : SessionState) (now : Nat) : SessionState :=
  add_system_message "⏹️ System stopped"
    { s with twitch_bot := none, system_running := false } now

/-- One inbound chat event together with the backend outcomes and the clock
reading for that event: the trace alphabet for sequences of relay steps. -/
structure ChatEvent where
  message : InboundMessage
  oracle : BackendOutcome
  now : Nat
deriving DecidableEq

/-- Process a sequence of inbound chat events through event_message,
discarding the outbound sends. -/
def process_events (bot : JN5000Bot) (s : SessionState) (events : List ChatEvent) :
    SessionState :=
  events.foldl (fun s e => (event_message bot s e.message e.oracle e.now).1) s

/-- Number of records of a given kind in a log. -/
def count_type (t : MsgType) (msgs : List MessageRecord) : Nat :=
  (msgs.filter (fun m => m.type == t)).length

/-- The chat record event_message appends for one non-echo inbound message. -/
def chat_record (message : InboundMessage) (now : Nat) : MessageRecord :=
  ⟨MsgType.twitch, message.author, message.content, now⟩

/-- The translation records (zero or one) the translation step appends. -/
def translation_records (bot : JN5000Bot) (oracle : BackendOutcome) (now : Nat) :
    List MessageRecord :=
  if bot.settings.translation_enabled && bot.translator then
    match oracle.translate with
    | some translated =>
      [⟨MsgType.translation, "Translator", "📝 " ++ translated, now⟩]
    | none => []
  else []

/-- The ai records (zero or one) the AI step appends. -/
def ai_records (bot : JN5000Bot) (message : InboundMessage) (oracle : BackendOutcome)
    (now : Nat) : List MessageRecord :=
  if bot.settings.ai_enabled && bot.groq_client then
    match generate_ai_response bot.settings message.author message.content
        oracle.completion with
    | some response =>
      if response ≠ "" then
        [⟨MsgType.ai, "AI Bot", "🤖 @" ++ message.author ++ ": " ++ response, now⟩]
      else []
    | none => []
  else []

/-- The outbound channel.send payloads (zero or one) the AI step produces. -/
def ai_sends (bot : JN5000Bot) (message : InboundMessage) (oracle : BackendOutcome) :
    List String :=
  if bot.settings.ai_enabled && bot.groq_client then
    match generate_ai_response bot.settings message.author message.content
        oracle.completion with
    | some response =>
      if response ≠ "" then ["@" ++ message.author ++ " " ++ response]
      else []
    | none => []
  else []

/-! ### Characterisation lemmas for the relay -/

lemma relay_translation_eq (bot : JN5000Bot) (s : SessionState)
    (oracle : BackendOutcome) (now : Nat) :
    relay_translation bot s oracle now =
      { s with
        messages := s.messages ++ translation_records bot oracle now
        translation_count :=
          s.translation_count + (translation_records bot oracle now).length } := by
  unfold relay_translation translation_records
  cases hb : (bot.settings.translation_enabled && bot.translator) <;>
    cases ht : oracle.translate <;> simp

lemma relay_ai_eq (bot : JN5000Bot) (s : SessionState) (message : InboundMessage)
    (oracle : BackendOutcome) (now : Nat) :
    relay_ai bot s message oracle now =
      ({ s with
         messages := s.messages ++ ai_records bot message oracle now
         ai_response_count :=
           s.ai_response_count + (ai_records bot message oracle now).length },
       ai_sends bot message oracle) := by
  unfold relay_ai ai_records ai_sends generate_ai_response
  cases hb : (bot.settings.ai_enabled && bot.groq_client)
  · simp
  · cases hc : oracle.completion with
    | none => simp
    | some content =>
      by_cases hr : strip content = "" <;> simp [hr]

lemma event_message_eq (bot : JN5000Bot) (s : SessionState)
    (message : InboundMessage) (oracle : BackendOutcome) (now : Nat)
    (h : message.echo = false) :
    event_message bot s message oracle now =
      ({ s with
         messages := s.messages ++ chat_record message now ::
           (translation_records bot oracle now ++ ai_records bot message oracle now)
         message_count := s.message_count + 1
         translation_count :=
           s.translation_count + (translation_records bot oracle now).length
         ai_response_count :=
           s.ai_response_count + (ai_records bot message oracle now).length },
       ai_sends bot message oracle) := by
  unfold event_message
  rw [h]
  simp only [Bool.false_eq_true, if_false]
  rw [relay_translation_eq, relay_ai_eq]
  simp [relay_chat, chat_record]

lemma translation_records_types (bot : JN5000Bot) (oracle : BackendOutcome)
    (now : Nat) :
    ∀ r ∈ translation_records bot oracle now, r.type = MsgType.translation := by
  unfold translation_records
  cases hb : (bot.settings.translation_enabled && bot.translator)
  · simp
  · cases ht : oracle.translate <;> simp

lemma ai_records_types (bot : JN5000Bot) (message : InboundMessage)
    (oracle : BackendOutcome) (now : Nat) :
    ∀ r ∈ ai_records bot message oracle now, r.type = MsgType.ai := by
  unfold ai_records generate_ai_response
  cases hb : (bot.settings.ai_enabled && bot.groq_client)
  · simp
  · cases hc : oracle.completion with
    | none => simp
    | some content => by_cases hr : strip content = "" <;> simp [hr]

lemma count_type_append (t : MsgType) (xs ys : List MessageRecord) :
    count_type t (xs ++ ys) = count_type t xs + count_type t ys := by
  simp [count_type, List.filter_append]

lemma count_type_cons_of_eq (r : MessageRecord) (t : MsgType) (l : List MessageRecord)
    (h : r.type = t) : count_type t (r :: l) = count_type t l + 1 := by
  simp [count_type, List.filter_cons, h]

lemma count_type_eq_zero {t : MsgType} {l : List MessageRecord}
    (h : ∀ r ∈ l, r.type ≠ t) : count_type t l = 0 := by
  rw [count_type, List.length_eq_zero, List.filter_eq_nil_iff]
  intro a ha
  simp [h a ha]

lemma count_twitch_event_message (bot : JN5000Bot) (s : SessionState)
    (m : InboundMessage) (oracle : BackendOutcome) (now : Nat) :
    count_type MsgType.twitch (event_message bot s m oracle now).1.messages
      = count_type MsgType.twitch s.messages + (if m.echo then 0 else 1) := by
  cases he : m.echo
  · rw [event_message_eq bot s m oracle now he]
    simp only [if_false, Bool.false_eq_true]
    have h1 : count_type MsgType.twitch (translation_records bot oracle now) = 0 :=
      count_type_eq_zero (fun r hr => by
        rw [translation_records_types bot oracle now r hr]; decide)
    have h2 : count_type MsgType.twitch (ai_records bot m oracle now) = 0 :=
      count_type_eq_zero (fun r hr => by
        rw [ai_records_types bot m oracle now r hr]; decide)
    rw [count_type_append, count_type_cons_of_eq (chat_record m now) MsgType.twitch _ rfl,
      count_type_append, h1, h2]
  · simp [event_message, he]

lemma process_events_nil (bot : JN5000Bot) (s : SessionState) :
    process_events bot s [] = s := rfl

lemma process_events_cons (bot : JN5000Bot) (s : SessionState) (e : ChatEvent)
    (es : List ChatEvent) :
    process_events bot s (e :: es)
      = process_events bot (event_message bot s e.message e.oracle e.now).1 es := rfl

lemma process_events_count (bot : JN5000Bot) (events : List ChatEvent) :
    ∀ s : SessionState,
      count_type MsgType.twitch (process_events bot s events).messages
        = count_type MsgType.twitch s.messages
          + (events.filter (fun e => !e.message.echo)).length := by
  induction events with
  | nil => intro s; simp [process_events_nil]
  | cons e es ih =>
    intro s
    rw [process_events_cons, ih, count_twitch_event_message]
    cases he : e.message.echo <;> simp [List.filter_cons, he] <;> omega

/-! ### Concrete fixtures for witnesses and counterexamples -/

/-- The default persona profile from the sidebar defaults. -/
def profile0 : Profile :=
  ⟨"Streamer", "A friendly streamer", "Friendly and helpful", "Various games",
   "Intel i9", "RTX 4090"⟩

/-- Settings with both features enabled, target language ar. -/
def settings0 : Settings := ⟨true, "ar", true, profile0⟩

/-- A bot with both backends configured and both features enabled. -/
def bot0 : JN5000Bot := ⟨true, true, settings0⟩

/-- Settings with translation disabled and AI enabled. -/
def settings_ai : Settings := ⟨false, "ar", true, profile0⟩

/-- A bot with only the completion backend configured. -/
def bot_ai : JN5000Bot := ⟨true, false, settings_ai⟩

/-- A non-echo inbound message from viewer1. -/
def msg0 : InboundMessage := ⟨false, "viewer1", "hello"⟩

/-- A self-echo inbound event. -/
def echoMsg : InboundMessage := ⟨true, "jn5000", "hi all"⟩

/-- Backend outcome: translation succeeds, completion raises. -/
def oracle_ai_fail : BackendOutcome := ⟨some "marhaba", none⟩

/-- Backend outcome: translation raises, completion succeeds. -/
def oracle_tr_fail : BackendOutcome := ⟨none, some " Hi there! "⟩

/-- Backend outcome: both backends succeed. -/
def oracle_ok : BackendOutcome := ⟨some "marhaba", some "Sure!"⟩

/-! ### Claim theorems -/

/-- Claim C1: for a non-self-echo message with AI enabled and a completion
backend configured, if the completion call fails then no outbound send occurs,
the AI-reply counter is unchanged, no ai record is added, and the log is
exactly the old log plus the chat record and whatever the translation step
appended. -/
theorem C1_completion_failure_no_ai_effects (bot : JN5000Bot) (s : SessionState)
    (m : InboundMessage) (oracle : BackendOutcome) (now : Nat)
    (h1 : m.echo = false)
    (h2 : (bot.settings.ai_enabled && bot.groq_client) = true)
    (h3 : oracle.completion = none) :
    (event_message bot s m oracle now).2 = []
    ∧ (event_message bot s m oracle now).1.ai_response_count = s.ai_response_count
    ∧ count_type MsgType.ai (event_message bot s m oracle now).1.messages
        = count_type MsgType.ai s.messages
    ∧ (event_message bot s m oracle now).1.messages
        = s.messages ++ chat_record m now :: translation_records bot oracle now := by
  have hai : ai_records bot m oracle now = [] := by
    simp [ai_records, generate_ai_response, h3]
  have hsend : ai_sends bot m oracle = [] := by
    simp [ai_sends, generate_ai_response, h3]
  have hz : count_type MsgType.ai
      (chat_record m now :: translation_records bot oracle now) = 0 := by
    apply count_type_eq_zero
    intro r hr
    rcases List.mem_cons.mp hr with h | h
    · rw [h]; simp [chat_record]
    · rw [translation_records_types bot oracle now r h]; decide
  rw [event_message_eq bot s m oracle now h1]
  simp only [hai, hsend, List.append_nil, List.length_nil, Nat.add_zero]
  refine ⟨trivial, trivial, ?_, trivial⟩
  rw [count_type_append, hz]
  omega

/-- Witness for C1 at a concrete input: viewer1 says hello, translation
succeeds, the Groq call raises. -/
theorem C1_witness :
    (event_message bot0 init msg0 oracle_ai_fail 0).2 = []
    ∧ (event_message bot0 init msg0 oracle_ai_fail 0).1.ai_response_count
        = init.ai_response_count
    ∧ count_type MsgType.ai (event_message bot0 init msg0 oracle_ai_fail 0).1.messages
        = count_type MsgType.ai init.messages
    ∧ (event_message bot0 init msg0 oracle_ai_fail 0).1.messages
        = init.messages ++ chat_record msg0 0 ::
            translation_records bot0 oracle_ai_fail 0 :=
  C1_completion_failure_no_ai_effects bot0 init msg0 oracle_ai_fail 0 rfl rfl rfl

/-- Claim C2: for a non-self-echo message with translation enabled and a
translator configured whose call fails, the relay still performs the AI step:
the chat record and the message-counter increment are retained and, when the
completion succeeds with a truthy response, the ai record is appended, the
AI-reply counter incremented and the reply sent. -/
theorem C2_translation_failure_does_not_block_ai (bot : JN5000Bot)
    (s : SessionState) (m : InboundMessage) (oracle : BackendOutcome) (now : Nat)
    (c : String)
    (h1 : m.echo = false)
    (h2 : (bot.settings.translation_enabled && bot.translator) = true)
    (h3 : oracle.translate = none)
    (h4 : (bot.settings.ai_enabled && bot.groq_client) = true)
    (h5 : oracle.completion = some c)
    (h6 : strip c ≠ "") :
    (event_message bot s m oracle now).1.messages
      = s.messages ++ [chat_record m now,
          ⟨MsgType.ai, "AI Bot", "🤖 @" ++ m.author ++ ": " ++ strip c, now⟩]
    ∧ (event_message bot s m oracle now).1.message_count = s.message_count + 1
    ∧ (event_message bot s m oracle now).1.ai_response_count
        = s.ai_response_count + 1
    ∧ (event_message bot s m oracle now).2 = ["@" ++ m.author ++ " " ++ strip c] := by
  have htr : translation_records bot oracle now = [] := by
    simp [translation_records, h2, h3]
  have hai : ai_records bot m oracle now
      = [⟨MsgType.ai, "AI Bot", "🤖 @" ++ m.author ++ ": " ++ strip c, now⟩] := by
    simp [ai_records, generate_ai_response, h4, h5, h6]
  have hsend : ai_sends bot m oracle = ["@" ++ m.author ++ " " ++ strip c] := by
    simp [ai_sends, generate_ai_response, h4, h5, h6]
  rw [event_message_eq bot s m oracle now h1]
  simp [htr, hai, hsend]

/-- Witness for C2 at a concrete input: the translation call raises, the
completion succeeds with a nonempty reply. -/
theorem C2_witness :
    (event_message bot0 init msg0 oracle_tr_fail 0).1.messages
      = init.messages ++ [chat_record msg0 0,
          ⟨MsgType.ai, "AI Bot", "🤖 @" ++ msg0.author ++ ": " ++ strip " Hi there! ", 0⟩]
    ∧ (event_message bot0 init msg0 oracle_tr_fail 0).1.message_count
        = init.message_count + 1
    ∧ (event_message bot0 init msg0 oracle_tr_fail 0).1.ai_response_count
        = init.ai_response_count + 1
    ∧ (event_message bot0 init msg0 oracle_tr_fail 0).2
        = ["@" ++ msg0.author ++ " " ++ strip " Hi there! "] :=
  C2_translation_failure_does_not_block_ai bot0 init msg0 oracle_tr_fail 0
    " Hi there! " rfl rfl rfl rfl rfl (by decide)

/-- Claim C3: a self-echo event leaves the session state untouched and
produces no outbound send, hence no record of any kind and no counter change. -/
theorem C3_self_echo_no_record (bot : JN5000Bot) (s : SessionState)
    (m : InboundMessage) (oracle : BackendOutcome) (now : Nat)
    (h : m.echo = true) :
    event_message bot s m oracle now = (s, []) := by
  simp [event_message, h]

/-- Witness for C3 at a concrete input: an echo event with both backends
available changes nothing. -/
theorem C3_witness : event_message bot0 init echoMsg oracle_ok 0 = (init, []) :=
  C3_self_echo_no_record bot0 init echoMsg oracle_ok 0 rfl

lemma getElem?_append_offset (xs ys : List MessageRecord) (k : Nat) :
    (xs ++ ys)[xs.length + k]? = ys[k]? := by
  rw [List.getElem?_append_right (Nat.le_add_right _ _)]
  simp

/-- Claim C4: over any sequence of inbound chat events (no clear in between)
the number of chat records in the log equals the number of non-self-echo
events, and each non-self-echo event appends exactly one chat record carrying
the sender name and raw text while incrementing the message counter by one. -/
theorem C4_chat_record_conservation (bot : JN5000Bot) (events : List ChatEvent) :
    count_type MsgType.twitch (process_events bot init events).messages
      = (events.filter (fun e => !e.message.echo)).length
    ∧ ∀ (s : SessionState) (m : InboundMessage) (oracle : BackendOutcome) (now : Nat),
        m.echo = false →
          (event_message bot s m oracle now).1.message_count = s.message_count + 1
          ∧ ∃ rest, (event_message bot s m oracle now).1.messages
              = s.messages ++ chat_record m now :: rest := by
  constructor
  · rw [process_events_count]
    simp [count_type, init]
  · intro s m oracle now hm
    rw [event_message_eq bot s m oracle now hm]
    exact ⟨rfl, _, rfl⟩

/-- Witness for C4 at a concrete input: one non-echo event appends one chat
record and bumps the message counter. -/
theorem C4_witness :
    (event_message bot0 init msg0 oracle_ok 0).1.message_count
        = init.message_count + 1
    ∧ ∃ rest, (event_message bot0 init msg0 oracle_ok 0).1.messages
        = init.messages ++ chat_record msg0 0 :: rest :=
  (C4_chat_record_conservation bot0 [⟨msg0, oracle_ok, 0⟩]).2 init msg0 oracle_ok 0 rfl

/-- Claim C5: when one inbound message yields both a translation record and an
ai record, the translation record sits at an earlier log position than the ai
record. -/
theorem C5_translation_before_ai (bot : JN5000Bot) (s : SessionState)
    (m : InboundMessage) (oracle : BackendOutcome) (now : Nat) (t c : String)
    (h1 : m.echo = false)
    (h2 : (bot.settings.translation_enabled && bot.translator) = true)
    (h3 : oracle.translate = some t)
    (h4 : (bot.settings.ai_enabled && bot.groq_client) = true)
    (h5 : oracle.completion = some c)
    (h6 : strip c ≠ "") :
    ∃ (i j : Nat) (rt ra : MessageRecord), i < j
      ∧ ((event_message bot s m oracle now).1.messages)[i]? = some rt
      ∧ rt.type = MsgType.translation
      ∧ ((event_message bot s m oracle now).1.messages)[j]? = some ra
      ∧ ra.type = MsgType.ai := by
  have htr : translation_records bot oracle now
      = [⟨MsgType.translation, "Translator", "📝 " ++ t, now⟩] := by
    simp [translation_records, h2, h3]
  have hai : ai_records bot m oracle now
      = [⟨MsgType.ai, "AI Bot", "🤖 @" ++ m.author ++ ": " ++ strip c, now⟩] := by
    simp [ai_records, generate_ai_response, h4, h5, h6]
  refine ⟨s.messages.length + 1, s.messages.length + 2,
    ⟨MsgType.translation, "Translator", "📝 " ++ t, now⟩,
    ⟨MsgType.ai, "AI Bot", "🤖 @" ++ m.author ++ ": " ++ strip c, now⟩,
    by omega, ?_, rfl, ?_, rfl⟩
  · rw [event_message_eq bot s m oracle now h1]
    show (s.messages ++ chat_record m now ::
      (translation_records bot oracle now ++ ai_records bot m oracle now))[
        s.messages.length + 1]? = _
    rw [htr, hai, getElem?_append_offset]
    rfl
  · rw [event_message_eq bot s m oracle now h1]
    show (s.messages ++ chat_record m now ::
      (translation_records bot oracle now ++ ai_records bot m oracle now))[
        s.messages.length + 2]? = _
    rw [htr, hai, getElem?_append_offset]
    rfl

/-- Witness for C5 at a concrete input where both backends succeed. -/
theorem C5_witness :
    ∃ (i j : Nat) (rt ra : MessageRecord), i < j
      ∧ ((event_message bot0 init msg0 oracle_ok 0).1.messages)[i]? = some rt
      ∧ rt.type = MsgType.translation
      ∧ ((event_message bot0 init msg0 oracle_ok 0).1.messages)[j]? = some ra
      ∧ ra.type = MsgType.ai :=
  C5_translation_before_ai bot0 init msg0 oracle_ok 0 "marhaba" "Sure!"
    rfl rfl rfl rfl rfl (by decide)

/-- Claim C6: clear_messages empties the log and zeroes the three counters,
from any state. -/
theorem C6_clear_messages_resets (s : SessionState) :
    (clear_messages s).messages = []
    ∧ (clear_messages s).message_count = 0
    ∧ (clear_messages s).translation_count = 0
    ∧ (clear_messages s).ai_response_count = 0 :=
  ⟨rfl, rfl, rfl, rfl⟩

/-- Claim C7: Start with an empty required field returns the configuration
error and leaves the session state untouched: still stopped, no record
appended, no bot or backend clients constructed. -/
theorem C7_start_config_error (cfg : SidebarConfig) (TA GA TRA : Bool)
    (s : SessionState) (now : Nat)
    (hs : s.system_running = false)
    (h : cfg.twitch_channel = "" ∨ cfg.twitch_token = "" ∨ cfg.twitch_bot_name = "") :
    start_system cfg TA GA TRA s now = (StartOutcome.configError, s)
    ∧ (start_system cfg TA GA TRA s now).2.system_running = false
    ∧ (start_system cfg TA GA TRA s now).2.messages = s.messages
    ∧ (start_system cfg TA GA TRA s now).2.twitch_bot = s.twitch_bot := by
  have hb : (cfg.twitch_channel == "" || cfg.twitch_token == ""
      || cfg.twitch_bot_name == "") = true := by
    rcases h with h | h | h <;> simp [h]
  have he : start_system cfg TA GA TRA s now = (StartOutcome.configError, s) := by
    unfold start_system
    rw [hb]
    simp
  refine ⟨he, ?_, ?_, ?_⟩ <;> rw [he] <;> simp [hs]

/-- Witness for C7: Start clicked with an empty channel field. -/
theorem C7_witness :
    start_system ⟨"", "oauth:tok", "jn5000", true, "gsk_key", true, "ar", profile0⟩
        true true true init 0 = (StartOutcome.configError, init)
    ∧ (start_system ⟨"", "oauth:tok", "jn5000", true, "gsk_key", true, "ar", profile0⟩
        true true true init 0).2.system_running = false
    ∧ (start_system ⟨"", "oauth:tok", "jn5000", true, "gsk_key", true, "ar", profile0⟩
        true true true init 0).2.messages = init.messages
    ∧ (start_system ⟨"", "oauth:tok", "jn5000", true, "gsk_key", true, "ar", profile0⟩
        true true true init 0).2.twitch_bot = init.twitch_bot :=
  C7_start_config_error ⟨"", "oauth:tok", "jn5000", true, "gsk_key", true, "ar", profile0⟩
    true true true init 0 rfl (Or.inl rfl)

/-- Counterexample to claim C8 as stated: viewer1 says hello, translation is
disabled, the completion backend succeeds with "Sure!", yet no ai record in
the resulting log carries the sender name viewer1 as its author field (the
code labels the ai record "AI Bot" and embeds the sender in the text). -/
theorem C8_counterexample :
    ¬ ∃ rec ∈ (event_message bot_ai init msg0 ⟨none, some "Sure!"⟩ 0).1.messages,
        rec.type = MsgType.ai ∧ rec.username = msg0.author := by decide

/-- Claim C8 as amended: when the completion backend succeeds with text that
is nonempty after stripping, the relay appends an ai record authored
"AI Bot" whose text embeds the sender name and the stripped generated text,
increments the AI-reply counter, and sends the stripped text to the channel
addressed to the sender. -/
theorem C8_ai_reply_success (bot : JN5000Bot) (s : SessionState)
    (m : InboundMessage) (oracle : BackendOutcome) (now : Nat) (c : String)
    (h1 : m.echo = false)
    (h4 : (bot.settings.ai_enabled && bot.groq_client) = true)
    (h5 : oracle.completion = some c)
    (h6 : strip c ≠ "") :
    (event_message bot s m oracle now).1.messages
      = s.messages ++ chat_record m now ::
          (translation_records bot oracle now ++
            [⟨MsgType.ai, "AI Bot", "🤖 @" ++ m.author ++ ": " ++ strip c, now⟩])
    ∧ (event_message bot s m oracle now).1.ai_response_count
        = s.ai_response_count + 1
    ∧ (event_message bot s m oracle now).2 = ["@" ++ m.author ++ " " ++ strip c] := by
  have hai : ai_records bot m oracle now
      = [⟨MsgType.ai, "AI Bot", "🤖 @" ++ m.author ++ ": " ++ strip c, now⟩] := by
    simp [ai_records, generate_ai_response, h4, h5, h6]
  have hsend : ai_sends bot m oracle = ["@" ++ m.author ++ " " ++ strip c] := by
    simp [ai_sends, generate_ai_response, h4, h5, h6]
  rw [event_message_eq bot s m oracle now h1]
  simp [hai, hsend]

/-- Witness for the amended C8 at a concrete input where the completion
succeeds with a nonempty reply. -/
theorem C8_witness :
    (event_message bot0 init msg0 oracle_ok 0).1.messages
      = init.messages ++ chat_record msg0 0 ::
          (translation_records bot0 oracle_ok 0 ++
            [⟨MsgType.ai, "AI Bot", "🤖 @" ++ msg0.author ++ ": " ++ strip "Sure!", 0⟩])
    ∧ (event_message bot0 init msg0 oracle_ok 0).1.ai_response_count
        = init.ai_response_count + 1
    ∧ (event_message bot0 init msg0 oracle_ok 0).2
        = ["@" ++ msg0.author ++ " " ++ strip "Sure!"] :=
  C8_ai_reply_success bot0 init msg0 oracle_ok 0 "Sure!" rfl rfl rfl (by decide)

/-- Counterexample to claim C9 as stated: the clear-log operation decreases
the messages-seen counter (from one to zero), so not every operation of the
system keeps the counters from decreasing. -/
theorem C9_counterexample :
    (clear_messages (add_system_message "boot" init 0)).message_count
      < (add_system_message "boot" init 0).message_count := by decide

/-- Claim C9 as amended: every operation of the system other than clear-log
(the relay, the connection announcement, the system-message helper, Start and
Stop) never decreases any of the three counters. -/
theorem C9_counters_monotone_outside_clear (bot : JN5000Bot) (s : SessionState)
    (m : InboundMessage) (oracle : BackendOutcome) (nick msg : String)
    (cfg : SidebarConfig) (TA GA TRA : Bool) (now : Nat) :
    (s.message_count ≤ (event_message bot s m oracle now).1.message_count
      ∧ s.translation_count ≤ (event_message bot s m oracle now).1.translation_count
      ∧ s.ai_response_count ≤ (event_message bot s m oracle now).1.ai_response_count)
    ∧ (s.message_count ≤ (event_ready nick s now).message_count
      ∧ s.translation_count ≤ (event_ready nick s now).translation_count
      ∧ s.ai_response_count ≤ (event_ready nick s now).ai_response_count)
    ∧ (s.message_count ≤ (add_system_message msg s now).message_count
      ∧ s.translation_count ≤ (add_system_message msg s now).translation_count
      ∧ s.ai_response_count ≤ (add_system_message msg s now).ai_response_count)
    ∧ (s.message_count ≤ (start_system cfg TA GA TRA s now).2.message_count
      ∧ s.translation_count ≤ (start_system cfg TA GA TRA s now).2.translation_count
      ∧ s.ai_response_count ≤ (start_system cfg TA GA TRA s now).2.ai_response_count)
    ∧ (s.message_count ≤ (stop_system s now).message_count
      ∧ s.translation_count ≤ (stop_system s now).translation_count
      ∧ s.ai_response_count ≤ (stop_system s now).ai_response_count) := by
  refine ⟨?_, ?_, ?_, ?_, ?_⟩
  · cases he : m.echo
    · rw [event_message_eq bot s m oracle now he]
      refine ⟨?_, ?_, ?_⟩ <;> simp
    · simp [event_message, he]
  · simp [event_ready]
  · simp [add_system_message]
  · unfold start_system
    split
    · simp
    · split
      · simp
      · simp [add_system_message]
  · simp [stop_system, add_system_message]

/-- Claim C10: event_ready and add_system_message each append exactly one
system record and increment the messages-seen counter by one; in particular
after a system record the counter exceeds the number of chat records. -/
theorem C10_system_records_bump_message_count (nick msg : String)
    (s : SessionState) (now : Nat) :
    event_ready nick s now
      = { s with
          messages := s.messages ++
            [⟨MsgType.system, "SystemBot", "✅ Connected to Twitch as " ++ nick, now⟩]
          message_count := s.message_count + 1 }
    ∧ add_system_message msg s now
      = { s with
          messages := s.messages ++ [⟨MsgType.system, "SystemBot", msg, now⟩]
          message_count := s.message_count + 1 }
    ∧ count_type MsgType.twitch (add_system_message msg init now).messages
        < (add_system_message msg init now).message_count := by
  refine ⟨rfl, rfl, ?_⟩
  simp [add_system_message, init, count_type]
